import Mathlib

/-!
Shallow embedding of the client-side prediction orchestration logic of the
ai-nrl-betting frontend: the response normalization in
`src/frontend/src/services/predictionAPI.ts` (`getPrediction`,
`getUserPredictions`), the static model registry in
`src/frontend/src/config/models.ts`, the allowed-modes fetch in the
prediction form component, the entitlement polling context, and the
history ordering in the user-predictions component.

JSON field values that may be absent (JS `undefined`) are modelled as
`Option`; probabilities and confidences as rationals; a JS number that may
be `NaN` as `Option Int` with `none` for `NaN`.
-/

namespace NRLBet

/-- A backend margin value: the raw response may carry a single number or a
two-element tuple (the RL variant). -/
inductive Margin where
  | single (m : ℚ)
  | pair (lo hi : ℚ)
deriving DecidableEq, Repr

/-- The untyped field bag of a raw prediction response body
(`PredictionResponseData` in `types.ts`): every confidence-bearing field is
optional, `none` standing for the field being absent (JS `undefined`). -/
structure RawPred where
  predicted_winner : Option String := none
  prob_home_win : Option ℚ := none
  prob_away_win : Option ℚ := none
  prob_draw : Option ℚ := none
  prob_home_rl : Option ℚ := none
  prob_away_rl : Option ℚ := none
  prob_draw_rl : Option ℚ := none
  winner_confidence : Option ℚ := none
  overall_confidence : Option ℚ := none
  confidence : Option ℚ := none
  margin : Option Margin := none
  model_alias : Option String := none
  model_name : Option String := none
  prediction_id : Option Int := none
deriving DecidableEq, Repr

/-- Which branch of the confidence if-chain in `getPrediction` fired.  The
tag also records the logging the branch performs: `winnerConf`,
`overallConf` and `genericConf` log a fallback warning, `noneFound` logs
the could-not-determine warning. -/
inductive ConfSource where
  | homeRL | awayRL | drawRL
  | homeStd | awayStd | drawStd
  | winnerConf | overallConf | genericConf
  | noneFound
deriving DecidableEq, Repr

/-- Priority index of each branch in the source if-chain (lower fires first). -/
def ruleIdx : ConfSource → Nat
  | .homeRL => 0
  | .awayRL => 1
  | .drawRL => 2
  | .homeStd => 3
  | .awayStd => 4
  | .drawStd => 5
  | .winnerConf => 6
  | .overallConf => 7
  | .genericConf => 8
  | .noneFound => 9

/-- The guard of each branch of the if-chain in `getPrediction`, exactly as
written in the source: the first six require the winner label AND the
matching probability field, the next three only field presence, and the
final default always applies. -/
def ruleCond (r : RawPred) : ConfSource → Prop
  | .homeRL => r.predicted_winner = some "Home" ∧ r.prob_home_rl.isSome = true
  | .awayRL => r.predicted_winner = some "Away" ∧ r.prob_away_rl.isSome = true
  | .drawRL => r.predicted_winner = some "Draw" ∧ r.prob_draw_rl.isSome = true
  | .homeStd => r.predicted_winner = some "Home Win" ∧ r.prob_home_win.isSome = true
  | .awayStd => r.predicted_winner = some "Away Win" ∧ r.prob_away_win.isSome = true
  | .drawStd => r.predicted_winner = some "Draw" ∧ r.prob_draw.isSome = true
  | .winnerConf => r.winner_confidence.isSome = true
  | .overallConf => r.overall_confidence.isSome = true
  | .genericConf => r.confidence.isSome = true
  | .noneFound => True

instance (r : RawPred) (s : ConfSource) : Decidable (ruleCond r s) := by
  unfold ruleCond; cases s <;> infer_instance

/-- The value a branch assigns when it fires (the default branch assigns 0). -/
def ruleValue (r : RawPred) : ConfSource → ℚ
  | .homeRL => r.prob_home_rl.getD 0
  | .awayRL => r.prob_away_rl.getD 0
  | .drawRL => r.prob_draw_rl.getD 0
  | .homeStd => r.prob_home_win.getD 0
  | .awayStd => r.prob_away_win.getD 0
  | .drawStd => r.prob_draw.getD 0
  | .winnerConf => r.winner_confidence.getD 0
  | .overallConf => r.overall_confidence.getD 0
  | .genericConf => r.confidence.getD 0
  | .noneFound => 0

/-- The confidence determination of `getPrediction`
(predictionAPI.ts lines 59-90), translated branch by branch: returns the
branch that fired together with the confidence it assigned. -/
def confResolve (r : RawPred) : ConfSource × ℚ :=
  if r.predicted_winner = some "Home" ∧ r.prob_home_rl.isSome = true then
    (.homeRL, r.prob_home_rl.getD 0)
  else if r.predicted_winner = some "Away" ∧ r.prob_away_rl.isSome = true then
    (.awayRL, r.prob_away_rl.getD 0)
  else if r.predicted_winner = some "Draw" ∧ r.prob_draw_rl.isSome = true then
    (.drawRL, r.prob_draw_rl.getD 0)
  else if r.predicted_winner = some "Home Win" ∧ r.prob_home_win.isSome = true then
    (.homeStd, r.prob_home_win.getD 0)
  else if r.predicted_winner = some "Away Win" ∧ r.prob_away_win.isSome = true then
    (.awayStd, r.prob_away_win.getD 0)
  else if r.predicted_winner = some "Draw" ∧ r.prob_draw.isSome = true then
    (.drawStd, r.prob_draw.getD 0)
  else if r.winner_confidence.isSome = true then
    (.winnerConf, r.winner_confidence.getD 0)
  else if r.overall_confidence.isSome = true then
    (.overallConf, r.overall_confidence.getD 0)
  else if r.confidence.isSome = true then
    (.genericConf, r.confidence.getD 0)
  else
    (.noneFound, 0)

/-- JS string truthiness as used by the `||` chain for the final alias: an
absent field and the empty string are falsy, every other string truthy. -/
def jsTruthy : Option String → Bool
  | none => false
  | some s => !(s == "")

/-- The final-alias determination of `getPrediction`
(`rawData.model_alias || rawData.model_name || modelAlias`), with JS `||`
falsiness made explicit. -/
def finalAlias (r : RawPred) (requested : String) : String :=
  if jsTruthy r.model_alias then r.model_alias.getD ""
  else if jsTruthy r.model_name then r.model_name.getD ""
  else requested

/-- The canonical prediction result built by `getPrediction`
(`PredictionResult` in `types.ts`): confidence is an always-present
rational; margin, winner and prediction id keep their raw optionality. -/
structure PredictionResult where
  predicted_winner : Option String
  confidence : ℚ
  margin : Option Margin
  model_alias : String
  prediction_id : Option Int
deriving DecidableEq, Repr

/-- The pure normalization step of `getPrediction` (predictionAPI.ts lines
58-112): the construction of the `PredictionResult` object from the parsed
raw body and the requested alias. -/
def normalize (r : RawPred) (modelAlias : String) : PredictionResult :=
  { predicted_winner := r.predicted_winner
    confidence := (confResolve r).2
    margin := r.margin
    model_alias := finalAlias r modelAlias
    prediction_id := r.prediction_id }

/-- The spec scenario raw response: predicted winner Away Win, a standard
away-win probability of 0.61 and a generic confidence of 0.5. -/
def awayWinScenario : RawPred :=
  { predicted_winner := some "Away Win"
    prob_away_win := some (61/100)
    confidence := some (1/2) }

/-! ### Static model registry (`src/frontend/src/config/models.ts`) -/

/-- Model tier from the registry. -/
inductive Tier where
  | free | premium
deriving DecidableEq, Repr

/-- A registry entry (`PredictionModel` in `types.ts`). -/
structure PredictionModel where
  id : String
  aliasName : String
  port : Nat
  apiUrl : String
  tier : Tier
  modelDescription : String
deriving DecidableEq, Repr

/-- The compiled-in registry `PREDICTION_MODELS` from `config/models.ts`. -/
def PREDICTION_MODELS : List PredictionModel :=
  [ { id := "lr", aliasName := "Quick Pick", port := 8001,
      apiUrl := "http://localhost:8001/predict", tier := .free,
      modelDescription := "Fast baseline prediction." },
    { id := "lgbm", aliasName := "Form Cruncher", port := 8002,
      apiUrl := "http://localhost:8002/predict", tier := .free,
      modelDescription := "Balanced performance model." },
    { id := "transformer", aliasName := "Deep Dive", port := 8004,
      apiUrl := "http://localhost:8004/predict", tier := .premium,
      modelDescription := "Context-aware transformer model." },
    { id := "stacker", aliasName := "Stacked", port := 8003,
      apiUrl := "http://localhost:8003/predict", tier := .premium,
      modelDescription := "Ensemble model for higher accuracy." },
    { id := "rl", aliasName := "Edge Finder", port := 8006,
      apiUrl := "http://localhost:8006/predict", tier := .premium,
      modelDescription := "Reinforcement learning agent." } ]

/-- `getModelByAlias` from `config/models.ts`: linear search by alias. -/
def getModelByAlias (aliasName : String) : Option PredictionModel :=
  PREDICTION_MODELS.find? (fun model => model.aliasName == aliasName)

/-- What `getPrediction` does before any response is received: either it
throws the configuration error (when the registry lookup fails) or it
issues exactly one fetch to the resolved endpoint, with an Authorization
header iff a token was supplied. -/
inductive OrchestratorStart where
  | configError (message : String)
  | fetchRequest (url : String) (hasAuthHeader : Bool)
deriving DecidableEq, Repr

/-- The prefix of `getPrediction` up to the fetch (predictionAPI.ts lines
14-40): registry lookup, throw on missing model, else build the request. -/
def getPredictionStart (modelAlias : String) (idToken : Option String) : OrchestratorStart :=
  match getModelByAlias modelAlias with
  | none => .configError
      ("Configuration error: Model with alias \"" ++ modelAlias ++ "\" not found.")
  | some model => .fetchRequest model.apiUrl idToken.isSome

/-- The network calls an orchestrator start issues: none on the error path,
exactly one on the fetch path. -/
def networkCallsOf : OrchestratorStart → List String
  | .configError _ => []
  | .fetchRequest url _ => [url]

/-! ### Entitlement state updates (prediction form and entitlements context) -/

/-- Outcome of the allowed-modes request in the prediction form: a
transport failure (the fetch rejected) or an HTTP response carrying a
status and the parsed body. -/
inductive ModesOutcome where
  | resp (status : Nat) (modes : List String)
  | netError
deriving DecidableEq, Repr

/-- fetch `Response.ok`: status in the inclusive range 200 to 299. -/
def respOk (status : Nat) : Bool :=
  decide (200 ≤ status) && decide (status ≤ 299)

/-- The state update performed by `fetchAllowedModes` in the prediction
form component: `response.ok` stores the body, a 403 resets to the default,
any other status resets to the default, and the catch branch resets to the
default.  The previous state is never consulted. -/
def fetchAllowedModesUpdate (_prev : List String) : ModesOutcome → List String
  | .resp status modes =>
      if respOk status then modes
      else if status = 403 then ["Quick Pick"]
      else ["Quick Pick"]
  | .netError => ["Quick Pick"]

/-- Outcome of the 30-second entitlement poll in `EntitlementsContext`: a
transport failure, or a response whose JSON body may or may not carry an
`entitlements` array. -/
inductive EntOutcome where
  | resp (status : Nat) (entitlements : Option (List String))
  | netError
deriving DecidableEq, Repr

/-- The state update of the poll in `EntitlementsContext.tsx` (lines
19-34): the then-chain stores `data.entitlements` without inspecting the
status, and the chain has no catch, so a rejected fetch (or body parse)
leaves the previously exposed state untouched. -/
def entitlementsPollUpdate (prev : Option (List String)) :
    EntOutcome → Option (List String)
  | .resp _ ents => ents
  | .netError => prev

/-- A failed allowed-modes refresh: transport failure or any non-ok status
(403 included). -/
def modesFailed : ModesOutcome → Prop
  | .resp status _ => respOk status = false
  | .netError => True

instance (o : ModesOutcome) : Decidable (modesFailed o) := by
  unfold modesFailed; cases o <;> infer_instance

/-! ### History normalization (`getUserPredictions`, predictionAPI.ts 154-193) -/

/-- A raw history record from the user service: the same confidence field
bag as a prediction response, plus the stored model alias and display
fields read by the mapper. -/
structure HistoryRecord extends RawPred where
  model : Option String := none
  match_date : Option String := none
  home_team_name : Option String := none
  away_team_name : Option String := none
  prediction_timestamp : Option String := none
deriving DecidableEq, Repr

/-- The confidence determination inside the `getUserPredictions` mapper:
the same first eight branches as `getPrediction`, but with NO generic
`confidence` fallback before the default 0. -/
def historyConfResolve (r : HistoryRecord) : ConfSource × ℚ :=
  if r.predicted_winner = some "Home" ∧ r.prob_home_rl.isSome = true then
    (.homeRL, r.prob_home_rl.getD 0)
  else if r.predicted_winner = some "Away" ∧ r.prob_away_rl.isSome = true then
    (.awayRL, r.prob_away_rl.getD 0)
  else if r.predicted_winner = some "Draw" ∧ r.prob_draw_rl.isSome = true then
    (.drawRL, r.prob_draw_rl.getD 0)
  else if r.predicted_winner = some "Home Win" ∧ r.prob_home_win.isSome = true then
    (.homeStd, r.prob_home_win.getD 0)
  else if r.predicted_winner = some "Away Win" ∧ r.prob_away_win.isSome = true then
    (.awayStd, r.prob_away_win.getD 0)
  else if r.predicted_winner = some "Draw" ∧ r.prob_draw.isSome = true then
    (.drawStd, r.prob_draw.getD 0)
  else if r.winner_confidence.isSome = true then
    (.winnerConf, r.winner_confidence.getD 0)
  else if r.overall_confidence.isSome = true then
    (.overallConf, r.overall_confidence.getD 0)
  else
    (.noneFound, 0)

/-- The object returned for each history record by the mapper in
`getUserPredictions`: note there is no margin field in the mapped object. -/
structure HistoryResult where
  predicted_winner : Option String
  confidence : ℚ
  model_alias : Option String
  match_date : Option String
  home_team_name : Option String
  away_team_name : Option String
  prediction_timestamp : Option String
  prediction_id : Option Int
deriving DecidableEq, Repr

/-- The per-record mapping of `getUserPredictions`: confidence by
`historyConfResolve`, the stored `model` field as the alias, the display
fields and the prediction id copied through. -/
def historyNormalize (r : HistoryRecord) : HistoryResult :=
  { predicted_winner := r.predicted_winner
    confidence := (historyConfResolve r).2
    model_alias := r.model
    match_date := r.match_date
    home_team_name := r.home_team_name
    away_team_name := r.away_team_name
    prediction_timestamp := r.prediction_timestamp
    prediction_id := r.prediction_id }

/-! ### History ordering (`UserPredictions` component) -/

/-- JS subtraction over numbers that may be NaN (`none`). -/
def jsSub : Option Int → Option Int → Option Int
  | some x, some y => some (x - y)
  | _, _ => none

/-- The timestamp ternary in the comparator:
`p.prediction_timestamp ? new Date(p.prediction_timestamp).getTime() : 0`.
An absent or empty (falsy) timestamp gives 0; otherwise the Date parse,
modelled as a parameter with `none` for an invalid date (NaN). -/
def recTime (parse : String → Option Int) : Option String → Option Int
  | none => some 0
  | some s => if s = "" then some 0 else parse s

/-- The comparator of the sorting `fetchPredictions`: `dateB - dateA`. -/
def histCompare (parse : String → Option Int) (a b : HistoryResult) : Option Int :=
  jsSub (recTime parse b.prediction_timestamp) (recTime parse a.prediction_timestamp)

/-- ES SortCompare on top of the comparator: a NaN result is treated as +0,
and `a` stays left of `b` when the comparator result is at most 0. -/
def histLe (parse : String → Option Int) (a b : HistoryResult) : Bool :=
  match histCompare parse a b with
  | none => true
  | some v => decide (v ≤ 0)

/-- Stable insertion of one element into a sorted list. -/
def insertBy (le : α → α → Bool) (a : α) : List α → List α
  | [] => [a]
  | b :: bs => if le a b then a :: b :: bs else b :: insertBy le a bs

/-- Stable sort by a boolean order, modelling `Array.prototype.sort`. -/
def sortBy (le : α → α → Bool) : List α → List α
  | [] => []
  | a :: rest => insertBy le a (sortBy le rest)

/-- The sort performed by the outer `fetchPredictions` in the
`UserPredictions` component (the function that carries the sort comment). -/
def sortUserPreds (parse : String → Option Int) (preds : List HistoryResult) :
    List HistoryResult :=
  sortBy (histLe parse) preds

/-- The inner `fetchPredictions` actually installed by the `useEffect` in
the `UserPredictions` component: it stores the fetched list in state
without sorting, shadowing the outer sorting function, which has no caller. -/
def effectExposedPredictions (fetched : List HistoryResult) : List HistoryResult :=
  fetched

/-! ### Theorems about the Normalizer -/

/-- The guard of the branch that fires holds. -/
theorem confResolve_firstMatch (r : RawPred) : ruleCond r (confResolve r).1 := by
  unfold confResolve
  split_ifs with h0 h1 h2 h3 h4 h5 h6 h7 h8 <;>
    first
      | exact h0 | exact h1 | exact h2 | exact h3 | exact h4
      | exact h5 | exact h6 | exact h7 | exact h8 | trivial

/-- No guard of strictly higher priority than the firing branch holds. -/
theorem confResolve_noHigher (r : RawPred) :
    ∀ s : ConfSource, ruleIdx s < ruleIdx (confResolve r).1 → ¬ ruleCond r s := by
  unfold confResolve
  split_ifs with h0 h1 h2 h3 h4 h5 h6 h7 h8 <;>
    (intro s hs
     cases s <;> dsimp only [ruleIdx] at hs <;>
      first
        | exact h0 | exact h1 | exact h2 | exact h3 | exact h4
        | exact h5 | exact h6 | exact h7 | exact h8 | omega)

/-- The firing branch assigns its own field value. -/
theorem confResolve_value (r : RawPred) :
    (confResolve r).2 = ruleValue r (confResolve r).1 := by
  unfold confResolve
  split_ifs <;> rfl

/-- Claim C1: for every raw response, the confidence assigned by the
normalization inside getPrediction comes from the highest-priority rule of
the ordered list whose label-and-field guard holds (RL pairs, then standard
pairs, then winner_confidence, then overall_confidence, then generic
confidence): the rule that fired holds, no strictly higher-priority rule
holds, and the assigned value is that rule's field value; and the spec
scenario predicted_winner Away Win with prob_away_win 0.61 and generic
confidence 0.5 yields confidence 0.61. -/
theorem c1_confidence_priority (r : RawPred) :
    ruleCond r (confResolve r).1 ∧
    (∀ s : ConfSource, ruleIdx s < ruleIdx (confResolve r).1 → ¬ ruleCond r s) ∧
    (confResolve r).2 = ruleValue r (confResolve r).1 ∧
    confResolve awayWinScenario = (ConfSource.awayStd, 61/100) :=
  ⟨confResolve_firstMatch r, confResolve_noHigher r, confResolve_value r, rfl⟩

/-- Claim C5: when no recognized confidence-bearing rule matches (no
winner-label and probability pair, and none of winner_confidence,
overall_confidence or generic confidence present), the normalization
resolves to the default branch: it returns confidence exactly 0 and the
noneFound tag, which is the branch that emits the could-not-determine
warning; the confidence of the canonical result is this 0, never absent
(the result type carries a mandatory confidence). -/
theorem c5_no_recognized_field (r : RawPred) (a : String)
    (h : ∀ s : ConfSource, s ≠ ConfSource.noneFound → ¬ ruleCond r s) :
    confResolve r = (ConfSource.noneFound, 0) ∧ (normalize r a).confidence = 0 := by
  have h0 := h .homeRL (by simp)
  have h1 := h .awayRL (by simp)
  have h2 := h .drawRL (by simp)
  have h3 := h .homeStd (by simp)
  have h4 := h .awayStd (by simp)
  have h5 := h .drawStd (by simp)
  have h6 := h .winnerConf (by simp)
  have h7 := h .overallConf (by simp)
  have h8 := h .genericConf (by simp)
  simp only [ruleCond] at h0 h1 h2 h3 h4 h5 h6 h7 h8
  have hres : confResolve r = (ConfSource.noneFound, 0) := by
    unfold confResolve
    split_ifs
    rfl
  exact ⟨hres, by simp [normalize, hres]⟩

/-- Witness for C5 at the spec scenario raw response containing only the
predicted winner Draw and no probability or confidence field at all. -/
theorem c5_no_recognized_field_witness :
    confResolve { predicted_winner := some "Draw" } = (ConfSource.noneFound, 0) ∧
    (normalize { predicted_winner := some "Draw" } "Quick Pick").confidence = 0 :=
  c5_no_recognized_field { predicted_winner := some "Draw" } "Quick Pick"
    (by intro s hs; cases s <;> simp_all [ruleCond])

/-- Claim C6: the normalization step is a total pure function of the parsed
field bag and the requested alias; it is defined here as a total computable
Lean function translated branch by branch from the source, and on every
input shape the result degrades to defaults rather than failing: the
confidence is 0 or the value of a field present in the input, and the model
alias is the raw alias field, the raw name field, or the requested alias. -/
theorem c6_normalize_total (r : RawPred) (a : String) :
    ((normalize r a).confidence = 0 ∨
      (r.prob_home_rl = some ((normalize r a).confidence) ∨
       r.prob_away_rl = some ((normalize r a).confidence) ∨
       r.prob_draw_rl = some ((normalize r a).confidence) ∨
       r.prob_home_win = some ((normalize r a).confidence) ∨
       r.prob_away_win = some ((normalize r a).confidence) ∨
       r.prob_draw = some ((normalize r a).confidence) ∨
       r.winner_confidence = some ((normalize r a).confidence) ∨
       r.overall_confidence = some ((normalize r a).confidence) ∨
       r.confidence = some ((normalize r a).confidence))) ∧
    ((normalize r a).model_alias = r.model_alias.getD "" ∨
     (normalize r a).model_alias = r.model_name.getD "" ∨
     (normalize r a).model_alias = a) := by
  constructor
  · show (confResolve r).2 = 0 ∨
      (r.prob_home_rl = some ((confResolve r).2) ∨
       r.prob_away_rl = some ((confResolve r).2) ∨
       r.prob_draw_rl = some ((confResolve r).2) ∨
       r.prob_home_win = some ((confResolve r).2) ∨
       r.prob_away_win = some ((confResolve r).2) ∨
       r.prob_draw = some ((confResolve r).2) ∨
       r.winner_confidence = some ((confResolve r).2) ∨
       r.overall_confidence = some ((confResolve r).2) ∨
       r.confidence = some ((confResolve r).2))
    unfold confResolve
    split_ifs with h0 h1 h2 h3 h4 h5 h6 h7 h8
    · rcases Option.isSome_iff_exists.mp h0.2 with ⟨q, hq⟩
      right; left; simp [hq]
    · rcases Option.isSome_iff_exists.mp h1.2 with ⟨q, hq⟩
      right; right; left; simp [hq]
    · rcases Option.isSome_iff_exists.mp h2.2 with ⟨q, hq⟩
      right; right; right; left; simp [hq]
    · rcases Option.isSome_iff_exists.mp h3.2 with ⟨q, hq⟩
      right; right; right; right; left; simp [hq]
    · rcases Option.isSome_iff_exists.mp h4.2 with ⟨q, hq⟩
      right; right; right; right; right; left; simp [hq]
    · rcases Option.isSome_iff_exists.mp h5.2 with ⟨q, hq⟩
      right; right; right; right; right; right; left; simp [hq]
    · rcases Option.isSome_iff_exists.mp h6 with ⟨q, hq⟩
      right; right; right; right; right; right; right; left; simp [hq]
    · rcases Option.isSome_iff_exists.mp h7 with ⟨q, hq⟩
      right; right; right; right; right; right; right; right; left; simp [hq]
    · rcases Option.isSome_iff_exists.mp h8 with ⟨q, hq⟩
      right; right; right; right; right; right; right; right; right; simp [hq]
    · left; rfl
  · show finalAlias r a = _ ∨ finalAlias r a = _ ∨ finalAlias r a = _
    unfold finalAlias
    split_ifs with t1 t2
    · left; rfl
    · right; left; rfl
    · right; right; rfl

/-- Claim C9: the margin and the prediction id of the canonical result
built by getPrediction are exactly the raw response fields, unchanged when
present and absent when absent; the normalization touches neither. -/
theorem c9_margin_id_passthrough (r : RawPred) (a : String) :
    (normalize r a).margin = r.margin ∧
    (normalize r a).prediction_id = r.prediction_id :=
  ⟨rfl, rfl⟩

/-- Claim C10: winner-label matching is exact and variant-specific, so a
raw response whose predicted winner is the RL label Home and that carries
the standard prob_home_win but none of prob_home_rl, winner_confidence,
overall_confidence or generic confidence resolves to the default branch:
confidence 0, although a home-win probability is present. -/
theorem c10_label_variant_mismatch (r : RawPred) (a : String) (p : ℚ)
    (hw : r.predicted_winner = some "Home")
    (_hstd : r.prob_home_win = some p)
    (hrl : r.prob_home_rl = none)
    (h7 : r.winner_confidence = none)
    (h8 : r.overall_confidence = none)
    (h9 : r.confidence = none) :
    confResolve r = (ConfSource.noneFound, 0) ∧ (normalize r a).confidence = 0 := by
  have hres : confResolve r = (ConfSource.noneFound, 0) := by
    unfold confResolve
    split_ifs with g0 g1 g2 g3 g4 g5 g6 g7 g8 <;> simp_all
  exact ⟨hres, by simp [normalize, hres]⟩

/-- The C10 witness raw response: RL label Home with only the standard
home-win probability 0.7 present. -/
def homeLabelScenario : RawPred :=
  { predicted_winner := some "Home"
    prob_home_win := some (7/10) }

/-- Witness for C10 at the concrete raw response with predicted winner Home
and prob_home_win 0.7 only. -/
theorem c10_label_variant_mismatch_witness :
    confResolve homeLabelScenario = (ConfSource.noneFound, 0) ∧
    (normalize homeLabelScenario "Quick Pick").confidence = 0 :=
  c10_label_variant_mismatch homeLabelScenario "Quick Pick" (7/10)
    rfl rfl rfl rfl rfl rfl

/-! ### Theorems about the Orchestrator start (registry lookup) -/

/-- Claim C7: for every alias absent from the static model registry,
getPrediction throws the unknown-model configuration error before the
request is built, and the start of the orchestration issues no network
call at all on this path. -/
theorem c7_unknown_model_no_fetch (aliasName : String) (tok : Option String)
    (h : getModelByAlias aliasName = none) :
    getPredictionStart aliasName tok =
      OrchestratorStart.configError
        ("Configuration error: Model with alias \"" ++ aliasName ++ "\" not found.") ∧
    networkCallsOf (getPredictionStart aliasName tok) = [] := by
  unfold getPredictionStart
  rw [h]
  exact ⟨rfl, rfl⟩

/-- Witness for C7 at the spec scenario alias Nonexistent, which is not in
the registry: the lookup fails and no fetch is issued. -/
theorem c7_unknown_model_no_fetch_witness :
    getModelByAlias "Nonexistent" = none ∧
    networkCallsOf (getPredictionStart "Nonexistent" none) = [] := by
  have h : getModelByAlias "Nonexistent" = none := by decide
  exact ⟨h, (c7_unknown_model_no_fetch "Nonexistent" none h).2⟩

/-! ### Theorems about the final-alias precedence -/

/-- The C8 counterexample raw response: the backend supplied a model_alias
field that is present but empty. -/
def emptyAliasScenario : RawPred :=
  { model_alias := some "" }

/-- Claim C8 counterexample: a raw response whose model_alias field is
present (the empty string) does NOT win; the JS or-chain treats the empty
string as falsy and falls through to the requested alias, so the canonical
alias is the requested one and not the backend-supplied field. -/
theorem c8_alias_empty_cex :
    emptyAliasScenario.model_alias = some "" ∧
    (normalize emptyAliasScenario "Quick Pick").model_alias = "Quick Pick" ∧
    (normalize emptyAliasScenario "Quick Pick").model_alias ≠ "" := by
  refine ⟨rfl, rfl, ?_⟩
  intro h
  exact absurd h (by decide)

/-- Claim C8 as amended: the model alias of the canonical result follows
the precedence raw model_alias, else raw model_name, else the requested
alias, where a field counts only when it is present AND non-empty (JS
truthiness); when the backend value is truthy it wins, and a mismatch is
only logged, never rejected (the normalization is a total function that
returns the backend value). -/
theorem c8_alias_precedence (r : RawPred) (a : String) :
    (jsTruthy r.model_alias = true →
      (normalize r a).model_alias = r.model_alias.getD "") ∧
    (jsTruthy r.model_alias = false → jsTruthy r.model_name = true →
      (normalize r a).model_alias = r.model_name.getD "") ∧
    (jsTruthy r.model_alias = false → jsTruthy r.model_name = false →
      (normalize r a).model_alias = a) := by
  refine ⟨fun h1 => ?_, fun h1 h2 => ?_, fun h1 h2 => ?_⟩ <;>
    show finalAlias r a = _ <;> unfold finalAlias <;> simp [h1]
  · simp [h2]
  · simp [h2]

/-- The C8 witness raw response: a truthy backend alias differing from the
requested one. -/
def backendAliasScenario : RawPred :=
  { model_alias := some "Edge Finder" }

/-- Witness for C8 as amended: with backend alias Edge Finder and requested
alias Quick Pick, the backend value wins. -/
theorem c8_alias_precedence_witness :
    (normalize backendAliasScenario "Quick Pick").model_alias =
      backendAliasScenario.model_alias.getD "" :=
  (c8_alias_precedence backendAliasScenario "Quick Pick").1 rfl

/-! ### Theorems about the entitlement updates -/

/-- Claim C2 counterexample: in the entitlements context, a transport
failure of the 30-second poll does NOT reset the exposed entitlements to
the default free-tier set; the poll chain has no catch, so the previously
exposed elevated set survives unchanged. -/
theorem c2_entitlements_cex :
    entitlementsPollUpdate (some ["Quick Pick", "Deep Dive"]) EntOutcome.netError =
      some ["Quick Pick", "Deep Dive"] ∧
    (["Quick Pick", "Deep Dive"] : List String) ≠ ["Quick Pick"] := by
  refine ⟨rfl, ?_⟩
  intro h
  exact absurd (congrArg List.length h) (by decide)

/-- Claim C2 as amended: the fail-closed reset holds for the allowed-modes
fetch of the prediction form — on a transport failure or any non-2xx
response (403 included) the exposed set becomes exactly the default
containing only Quick Pick, regardless of the previous state — while the
entitlements context preserves the previously exposed set on a transport
failure of its poll. -/
theorem c2_failed_refresh (prevForm : List String)
    (prevCtx : Option (List String)) (o : ModesOutcome) (h : modesFailed o) :
    fetchAllowedModesUpdate prevForm o = ["Quick Pick"] ∧
    entitlementsPollUpdate prevCtx EntOutcome.netError = prevCtx := by
  refine ⟨?_, rfl⟩
  cases o with
  | netError => rfl
  | resp status modes =>
      have hst : respOk status = false := h
      simp [fetchAllowedModesUpdate, hst]

/-- Witness for C2 as amended at the spec scenario: a 403 response resets
the prediction form state, previously elevated, to the default set, and a
transport failure leaves the context state unchanged. -/
theorem c2_failed_refresh_witness :
    fetchAllowedModesUpdate ["Quick Pick", "Deep Dive"]
      (ModesOutcome.resp 403 []) = ["Quick Pick"] ∧
    entitlementsPollUpdate (some ["Deep Dive"]) EntOutcome.netError =
      some ["Deep Dive"] :=
  c2_failed_refresh ["Quick Pick", "Deep Dive"] (some ["Deep Dive"])
    (ModesOutcome.resp 403 []) (by decide)

/-! ### Theorems about the history normalization -/

/-- The history confidence chain agrees with the prediction chain on the
shared field bag except that the generic-confidence branch is missing:
when the prediction chain resolves by the generic fallback, the history
chain falls through to the default. -/
theorem hist_vs_conf (x : HistoryRecord) :
    ((confResolve x.toRawPred).1 ≠ ConfSource.genericConf ∧
      historyConfResolve x = confResolve x.toRawPred) ∨
    ((confResolve x.toRawPred).1 = ConfSource.genericConf ∧
      historyConfResolve x = (ConfSource.noneFound, 0)) := by
  unfold historyConfResolve confResolve
  split_ifs with h0 h1 h2 h3 h4 h5 h6 h7 h8 <;>
    first
      | exact Or.inl ⟨fun hc => ConfSource.noConfusion hc, rfl⟩
      | exact Or.inr ⟨rfl, rfl⟩

/-- The C3 counterexample history record: the shared field bag carries only
a generic confidence 0.5 and a margin of 6. -/
def marginConfScenario : HistoryRecord :=
  { confidence := some (1/2)
    margin := some (Margin.single 6)
    model := some "Quick Pick" }

/-- Claim C3 counterexample: on a history record whose field bag resolves
by the generic confidence fallback, getUserPredictions does not produce the
canonical result of the getPrediction normalization: the prediction
normalization yields confidence 0.5 and passes the margin through, while
the history mapping yields confidence 0, and its result object carries no
margin field at all. -/
theorem c3_history_cex :
    marginConfScenario.confidence = some (1/2) ∧
    (normalize marginConfScenario.toRawPred "Quick Pick").confidence = 1/2 ∧
    (normalize marginConfScenario.toRawPred "Quick Pick").margin =
      some (Margin.single 6) ∧
    (historyNormalize marginConfScenario).confidence = 0 :=
  ⟨rfl, rfl, rfl, rfl⟩

/-- Claim C3 as amended: the history mapping of getUserPredictions agrees
with the getPrediction normalization of the same field bag on the winner,
the prediction id, and on the confidence whenever the resolving rule is not
the generic-confidence fallback; when the prediction chain would resolve by
the generic confidence field the history mapping yields 0 instead; the
stored model field is used as the model alias; and the history result
carries no margin. -/
theorem c3_history_refinement (x : HistoryRecord) (a : String) :
    (historyNormalize x).predicted_winner =
      (normalize x.toRawPred a).predicted_winner ∧
    (historyNormalize x).prediction_id =
      (normalize x.toRawPred a).prediction_id ∧
    (historyNormalize x).model_alias = x.model ∧
    ((confResolve x.toRawPred).1 ≠ ConfSource.genericConf →
      (historyNormalize x).confidence = (normalize x.toRawPred a).confidence) ∧
    ((confResolve x.toRawPred).1 = ConfSource.genericConf →
      (historyNormalize x).confidence = 0) := by
  refine ⟨rfl, rfl, rfl, fun hne => ?_, fun heq => ?_⟩
  · show (historyConfResolve x).2 = (confResolve x.toRawPred).2
    rcases hist_vs_conf x with ⟨-, he⟩ | ⟨hg, -⟩
    · rw [he]
    · exact absurd hg hne
  · show (historyConfResolve x).2 = 0
    rcases hist_vs_conf x with ⟨hg, -⟩ | ⟨-, he⟩
    · exact absurd heq hg
    · rw [he]

/-- The C3 witness history record: an RL-style record resolving by the
winner_confidence fallback. -/
def rlHistoryScenario : HistoryRecord :=
  { predicted_winner := some "Home"
    winner_confidence := some (3/4)
    model := some "Edge Finder" }

/-- Witness for C3 as amended at an RL-style record resolving by
winner_confidence: the history confidence equals the prediction-chain
confidence there. -/
theorem c3_history_refinement_witness :
    (historyNormalize rlHistoryScenario).confidence =
      (normalize rlHistoryScenario.toRawPred "Edge Finder").confidence :=
  (c3_history_refinement rlHistoryScenario "Edge Finder").2.2.2.1 (by decide)

/-! ### Theorems about the history ordering -/

/-- The older C4 demo record (timestamp January 2025). -/
def histOlder : HistoryResult :=
  { predicted_winner := some "Home Win"
    confidence := 0
    model_alias := some "Quick Pick"
    match_date := some "2025-01-04"
    home_team_name := some "Broncos"
    away_team_name := some "Raiders"
    prediction_timestamp := some "2025-01-01T00:00:00Z"
    prediction_id := some 1 }

/-- The newer C4 demo record (timestamp March 2025). -/
def histNewer : HistoryResult :=
  { predicted_winner := some "Away Win"
    confidence := 0
    model_alias := some "Quick Pick"
    match_date := some "2025-03-02"
    home_team_name := some "Storm"
    away_team_name := some "Eels"
    prediction_timestamp := some "2025-03-01T00:00:00Z"
    prediction_id := some 2 }

/-- A concrete Date parse for the two demo timestamps (epoch milliseconds). -/
def demoParse : String → Option Int := fun s =>
  if s = "2025-01-01T00:00:00Z" then some 1735689600000
  else if s = "2025-03-01T00:00:00Z" then some 1740787200000
  else none

/-- Claim C4, evaluated at the failing input: the useEffect of the
UserPredictions component installs an inner fetchPredictions that stores
the fetched records without sorting, so two records fetched oldest-first
are exposed oldest-first; the outer fetchPredictions, which carries the
descending sort, is shadowed and never called — applying its sort to the
same input would give the newest-first order the claim describes, which
differs from the exposed one. -/
theorem c4_history_order_bug :
    effectExposedPredictions [histOlder, histNewer] = [histOlder, histNewer] ∧
    sortUserPreds demoParse [histOlder, histNewer] = [histNewer, histOlder] ∧
    ([histOlder, histNewer] : List HistoryResult) ≠ [histNewer, histOlder] := by
  refine ⟨rfl, rfl, ?_⟩
  intro h
  have h2 := congrArg (fun l => (l.map HistoryResult.prediction_id).head?) h
  simp [histOlder, histNewer] at h2

end NRLBet
